import Mathlib

/-!
Verification of the diosix container entrypoint scripts.

The repository holds two variants of the same Python entrypoint:

* `src/docker/entrypoint.py` (embedded here with names beginning `docker`):
  branches on `not os.environ.get('K_SERVICE')`; the local branch calls
  `os.system('. $HOME/.cargo/env && cd /diosix && {}'.format(' '.join(sys.argv[1:])))`,
  the other branch prints a line and starts a Flask app with one route at /
  on `int(os.environ.get('PORT', 8080))`.

* `src/entrypoint.py` (embedded here with names beginning `variant`):
  branches on `os.environ.get('K_SERVICE') != ''`; in both branches every
  statement except the announcement `print` is commented out.

The embedding is a shallow one: the process environment is an association
list, the Python programs become Lean functions from the environment, the
argument list `sys.argv[1:]` and an oracle describing what the wrapped shell
command would write and return, to a trace of observable events plus a
termination outcome.
-/

/-- Mode of execution decided from the environment, as in the spec. -/
inductive Mode where
  | LocalMode
  | ServerlessMode
deriving DecidableEq

/-- Process environment: an association list from variable names to values.
Lookup mirrors `os.environ.get(k)`: the value when the key is present,
otherwise none. -/
def getEnv (env : List (String × String)) (k : String) : Option String :=
  match env.find? (fun p => p.1 == k) with
  | some p => some p.2
  | none => none

/-- Python truth test applied by `not os.environ.get(..)` in
src/docker/entrypoint.py line 25: `None` and the empty string are falsy,
every other string is truthy.  This returns the value of the Python `not`,
so `true` means absent or empty. -/
def pyFalsy : Option String → Bool
  | none => true
  | some s => s == ""

/-- The comparison `os.environ.get('K_SERVICE') != ''` from
src/entrypoint.py line 24.  Note `None != ''` evaluates to `True` in
Python, so an absent variable makes this true. -/
def pyNeEmpty : Option String → Bool
  | none => true
  | some s => !(s == "")

/-- Python `str` applied to the possibly-missing result of
`os.environ.get`: `None` renders as the text "None". -/
def pyStr : Option String → String
  | none => "None"
  | some s => s

/-- Digit run of a CPython base-10 integer literal: decimal digits with
single underscores allowed only between digits.  `acc` is the value of the
digits read so far. -/
def pyDigitsAux : Nat → List Char → Option Nat
  | acc, [] => some acc
  | acc, c :: cs =>
      if c.isDigit then pyDigitsAux (acc * 10 + (c.toNat - 48)) cs
      else if c == '_' then
        match cs with
        | [] => none
        | d :: cs' => if d.isDigit then pyDigitsAux (acc * 10 + (d.toNat - 48)) cs' else none
      else none

/-- ASCII whitespace stripped by CPython `int(str)` before parsing. -/
def pySpace (c : Char) : Bool :=
  c == ' ' || c == '\t' || c == '\n' || c == '\r' || c == '\x0b' || c == '\x0c'

/-- CPython `int(s)` on an ASCII string: strip whitespace, optional sign,
then a digit run; `none` models the `ValueError` raised on any other
input (for example the empty string or `"abc"`). -/
def pyParseInt (s : String) : Option Int :=
  let cs := ((s.toList.dropWhile pySpace).reverse.dropWhile pySpace).reverse
  match cs with
  | [] => none
  | '+' :: rest =>
      match rest with
      | [] => none
      | d :: _ => if d.isDigit then (pyDigitsAux 0 rest).map Int.ofNat else none
  | '-' :: rest =>
      match rest with
      | [] => none
      | d :: _ => if d.isDigit then (pyDigitsAux 0 rest).map (fun n => -(Int.ofNat n)) else none
  | d :: _ => if d.isDigit then (pyDigitsAux 0 cs).map Int.ofNat else none

/-- Observable events of one entrypoint run.
`printed l` is a `print(l)` call (a newline follows on stdout);
`ranShell cmd out st` is an `os.system(cmd)` call whose wrapped command
wrote `out` to the inherited stdout and returned status `st`;
`served h p` is `app.run(..., host=h, port=p)` starting the Flask listener. -/
inductive Event where
  | printed (line : String)
  | ranShell (cmd : String) (out : String) (st : Int)
  | served (host : String) (port : Int)
deriving DecidableEq

/-- Uncaught Python exceptions the embedded code can raise. -/
inductive PyErr where
  | valueError
deriving DecidableEq

/-- Result of one entrypoint process run: the event trace, whether the
script ended normally or died on an uncaught exception, and the command
output text, if any, that the program retained in a variable.  In both
source files no statement ever binds the output of an executed command to
a variable (`os.system` returns only the status word and even that is
discarded; the `os.popen` code that would read output is commented out),
so no code path produces a `retained` value. -/
structure Run where
  events : List Event
  outcome : Except PyErr Unit
  retained : Option String

/-- Exit status of the Python process for a given run outcome: 0 when the
script falls off the end, 1 on an uncaught exception. -/
def exitCodeOf (r : Run) : Int :=
  match r.outcome with
  | Except.ok _ => 0
  | Except.error _ => 1

/-- Text appearing on the process stdout from one event: `print` adds a
newline; a command run under `os.system` writes its output straight to the
inherited stdout; `app.run` writes nothing we model. -/
def eventOut : Event → String
  | Event.printed l => l ++ "\n"
  | Event.ranShell _ out _ => out
  | Event.served _ _ => ""

/-- Everything the run wrote to the process stdout, in order. -/
def stdoutOf (r : Run) : String :=
  String.join (r.events.map eventOut)

/-- Does the trace hold an `os.system` invocation? -/
def hasShellEvent (r : Run) : Bool :=
  r.events.any (fun e => match e with | Event.ranShell _ _ _ => true | _ => false)

/-- Does the trace hold a started HTTP listener? -/
def hasServedEvent (r : Run) : Bool :=
  r.events.any (fun e => match e with | Event.served _ _ => true | _ => false)

/-- Classifier of src/docker/entrypoint.py line 25:
`if not os.environ.get('K_SERVICE'):` selects the local branch, the `else`
branch is the Google Cloud HTTP service. -/
def dockerClassify (env : List (String × String)) : Mode :=
  if pyFalsy (getEnv env "K_SERVICE") then Mode.LocalMode else Mode.ServerlessMode

/-- Shell command line built at src/docker/entrypoint.py line 27:
`'. $HOME/.cargo/env && cd /diosix && {}'.format(' '.join(sys.argv[1:]))`. -/
def localCommand (args : List String) : String :=
  ". $HOME/.cargo/env && cd /diosix && " ++ String.intercalate " " args

/-- Local branch of src/docker/entrypoint.py (lines 26 and 27): print the
announcement, then one `os.system` call on the composed command line.  The
oracle `run` maps a command line to the stdout text the wrapped command
writes and the status `os.system` returns; the return value is an
expression statement in the source, so nothing is retained. -/
def dockerLocalBody (args : List String) (run : String → String × Int) : Run :=
  let cmd := localCommand args
  { events := [Event.printed "Running locally", Event.ranShell cmd (run cmd).1 (run cmd).2]
    outcome := Except.ok ()
    retained := none }

/-- Announcement printed at src/docker/entrypoint.py line 29.  The Python
`print` takes the format string and the three values as separate
arguments, so they are joined by single spaces and `None` values render
as "None". -/
def dockerHttpLine (env : List (String × String)) : String :=
  "Running HTTP service \x7b\x7d \x7b\x7d \x7b\x7d for Google Cloud"
    ++ " " ++ pyStr (getEnv env "K_SERVICE")
    ++ " " ++ pyStr (getEnv env "K_REVISION")
    ++ " " ++ pyStr (getEnv env "K_CONFIGURATION")

/-- Port expression of src/docker/entrypoint.py line 34:
`int(os.environ.get('PORT', 8080))`.  When PORT is absent the `get`
default is already the integer 8080; when PORT is present its string value
goes through `int`, and `none` models the `ValueError` raised when it does
not parse. -/
def dockerPortValue (env : List (String × String)) : Option Int :=
  match getEnv env "PORT" with
  | none => some 8080
  | some s => pyParseInt s

/-- Body returned by the route registered at src/docker/entrypoint.py
lines 31 to 33: a string constant. -/
def ContainerService : String :=
  "Container built. Use docker images and docker run in the Google Cloud shell to run this container.\n"

/-- The Flask application of src/docker/entrypoint.py: exactly one route,
at path /, for GET requests (the Flask default method), answering 200 with
the constant body; any other request matches no route. -/
def dockerApp (method path : String) : Option (Nat × String) :=
  if path == "/" && method == "GET" then some (200, ContainerService) else none

/-- Serverless branch of src/docker/entrypoint.py (lines 29 to 34): print
the announcement, evaluate the port expression, and start the listener on
host 0.0.0.0.  When `int` raises, the print has already happened and the
listener never starts. -/
def dockerServeBody (env : List (String × String)) : Run :=
  match dockerPortValue env with
  | none =>
      { events := [Event.printed (dockerHttpLine env)]
        outcome := Except.error PyErr.valueError
        retained := none }
  | some p =>
      { events := [Event.printed (dockerHttpLine env), Event.served "0.0.0.0" p]
        outcome := Except.ok ()
        retained := none }

/-- Top level of src/docker/entrypoint.py (lines 24 to 34): classify once
from the environment, then run exactly one branch. -/
def dockerMain (env : List (String × String)) (args : List String)
    (run : String → String × Int) : Run :=
  match dockerClassify env with
  | Mode.LocalMode => dockerLocalBody args run
  | Mode.ServerlessMode => dockerServeBody env

/-- Classifier of src/entrypoint.py line 24:
`if (os.environ.get('K_SERVICE')) != '':` selects the Google Cloud branch,
the `else` branch is local.  Because `None != ''` is true, an absent
variable selects the Google Cloud branch here. -/
def variantClassify (env : List (String × String)) : Mode :=
  if pyNeEmpty (getEnv env "K_SERVICE") then Mode.ServerlessMode else Mode.LocalMode

/-- Top level of src/entrypoint.py (lines 23 to 35).  In both branches
every statement other than the announcement `print` is commented out
(the Flask app of lines 26 to 30 and the `os.popen` pipeline of lines 33
to 35), so each branch only prints its line; the argument list is never
consumed and the script always falls off the end. -/
def variantMain (env : List (String × String)) (_args : List String) : Run :=
  match variantClassify env with
  | Mode.ServerlessMode =>
      { events := [Event.printed "Running HTTP service for Google Cloud"]
        outcome := Except.ok ()
        retained := none }
  | Mode.LocalMode =>
      { events := [Event.printed "Running locally"]
        outcome := Except.ok ()
        retained := none }

/-- C1: the claim states that an absent or empty K_SERVICE always yields
LocalMode.  The docker variant satisfies this, but src/entrypoint.py
compares the result of `os.environ.get` against the empty string with `!=`,
and in Python the comparison of `None` with the empty string is true, so an
absent variable sends that script into the Google Cloud HTTP branch.  This
contradicts the claim and the header comment of src/entrypoint.py itself,
which says the HTTP mode requires K_SERVICE to be set.  This theorem
evaluates both classifiers at the failing input (empty environment) and at
the empty-string input, and records the line the variant prints there. -/
theorem c1_classifier_divergence :
    variantClassify [] = Mode.ServerlessMode ∧
    variantClassify [("K_SERVICE", "")] = Mode.LocalMode ∧
    dockerClassify [] = Mode.LocalMode ∧
    dockerClassify [("K_SERVICE", "")] = Mode.LocalMode ∧
    (variantMain [] []).events = [Event.printed "Running HTTP service for Google Cloud"] :=
  ⟨by decide, by decide, by decide, by decide, by decide⟩

/-- C2: whenever the K_SERVICE variable holds any non-empty string,
including a whitespace-only string, both entrypoint variants classify the
environment as ServerlessMode. -/
theorem c2_nonempty_serverless (env : List (String × String)) (s : String)
    (hget : getEnv env "K_SERVICE" = some s) (hne : s ≠ "") :
    dockerClassify env = Mode.ServerlessMode ∧
    variantClassify env = Mode.ServerlessMode := by
  constructor
  · simp [dockerClassify, pyFalsy, hget, hne]
  · simp [variantClassify, pyNeEmpty, hget, hne]

/-- C2 witness: a whitespace-only K_SERVICE value selects ServerlessMode in
both variants. -/
theorem c2_nonempty_serverless_witness :
    getEnv [("K_SERVICE", " ")] "K_SERVICE" = some " " ∧ (" " : String) ≠ "" ∧
    dockerClassify [("K_SERVICE", " ")] = Mode.ServerlessMode ∧
    variantClassify [("K_SERVICE", " ")] = Mode.ServerlessMode :=
  ⟨by decide, by decide,
   (c2_nonempty_serverless [("K_SERVICE", " ")] " " (by decide) (by decide)).1,
   (c2_nonempty_serverless [("K_SERVICE", " ")] " " (by decide) (by decide)).2⟩

/-- C3 counterexample: with an empty environment and arguments echo hi,
whose wrapped command writes the text hi plus newline, the docker
entrypoint retains no captured output value at all, so no CommandResult
with capturedOutput equal to that text exists; the `os.system` call lets
the command write straight to the inherited process stdout instead. -/
theorem c3_counterexample :
    (dockerMain [] ["echo", "hi"] (fun _ => ("hi\n", 0))).retained = none ∧
    stdoutOf (dockerMain [] ["echo", "hi"] (fun _ => ("hi\n", 0))) = "Running locally\nhi\n" :=
  ⟨by decide, by decide⟩

/-- C3 amended: in LocalMode the wrapped command output is not captured
into any value (the `os.system` return is only the status word and is
discarded); the output passes through, unsuppressed and untransformed, to
the process stdout, right after the announcement line. -/
theorem c3_output_passthrough (env : List (String × String)) (args : List String)
    (run : String → String × Int) (h : dockerClassify env = Mode.LocalMode) :
    (dockerMain env args run).retained = none ∧
    stdoutOf (dockerMain env args run) = "Running locally\n" ++ (run (localCommand args)).1 := by
  unfold dockerMain
  rw [h]
  exact ⟨rfl, rfl⟩

/-- C3 amended witness: Scenario A inputs, empty environment and arguments
echo hi; the process stdout ends with the command output. -/
theorem c3_output_passthrough_witness :
    dockerClassify [] = Mode.LocalMode ∧
    (dockerMain [] ["echo", "hi"] (fun _ => ("hi\n", 0))).retained = none ∧
    stdoutOf (dockerMain [] ["echo", "hi"] (fun _ => ("hi\n", 0))) =
      "Running locally\n" ++ "hi\n" :=
  ⟨by decide,
   (c3_output_passthrough [] ["echo", "hi"] (fun _ => ("hi\n", 0)) (by decide)).1,
   (c3_output_passthrough [] ["echo", "hi"] (fun _ => ("hi\n", 0)) (by decide)).2⟩

/-- C4: in LocalMode the entrypoint exits 0 whatever status the wrapped
command returns, and nothing observable on stdout depends on that status:
two runs whose commands write the same output but return different
statuses produce identical process stdout. -/
theorem c4_exit_zero (env : List (String × String)) (args : List String)
    (out : String → String) (st st' : String → Int)
    (h : dockerClassify env = Mode.LocalMode) :
    exitCodeOf (dockerMain env args (fun c => (out c, st c))) = 0 ∧
    stdoutOf (dockerMain env args (fun c => (out c, st c))) =
      stdoutOf (dockerMain env args (fun c => (out c, st' c))) := by
  unfold dockerMain
  rw [h]
  exact ⟨rfl, rfl⟩

/-- C4 witness: Scenario E, a wrapped command that writes nothing and
exits 1; the entrypoint still exits 0. -/
theorem c4_exit_zero_witness :
    dockerClassify [] = Mode.LocalMode ∧
    exitCodeOf (dockerMain [] ["false"] (fun _ => ("", (1 : Int)))) = 0 :=
  ⟨by decide,
   (c4_exit_zero [] ["false"] (fun _ => "") (fun _ => 1) (fun _ => 0) (by decide)).1⟩

/-- C5 counterexample: with K_SERVICE set and PORT set to abc, the port
expression raises ValueError instead of yielding 8080, the process dies on
the uncaught exception and no listener ever starts; and a negative PORT
parses, so the parse is signed, not unsigned. -/
theorem c5_counterexample :
    dockerPortValue [("K_SERVICE", "svc"), ("PORT", "abc")] = none ∧
    (dockerMain [("K_SERVICE", "svc"), ("PORT", "abc")] [] (fun _ => ("", 0))).outcome =
      Except.error PyErr.valueError ∧
    hasServedEvent (dockerMain [("K_SERVICE", "svc"), ("PORT", "abc")] [] (fun _ => ("", 0))) = false ∧
    exitCodeOf (dockerMain [("K_SERVICE", "svc"), ("PORT", "abc")] [] (fun _ => ("", 0))) = 1 ∧
    dockerPortValue [("K_SERVICE", "svc"), ("PORT", "-1")] = some (-1) :=
  ⟨by decide, by rfl, by decide, by decide, by decide⟩

/-- C5 amended: in ServerlessMode the listen port comes from PORT under
CPython int parsing (signed); 8080 is used only when PORT is absent; when
PORT is present but unparsable the process raises ValueError and no
listener starts, rather than falling back to 8080. -/
theorem c5_port_selection (env : List (String × String)) (args : List String)
    (run : String → String × Int) (h : dockerClassify env = Mode.ServerlessMode) :
    (getEnv env "PORT" = none →
      (dockerMain env args run).events =
        [Event.printed (dockerHttpLine env), Event.served "0.0.0.0" 8080]) ∧
    (∀ s p, getEnv env "PORT" = some s → pyParseInt s = some p →
      (dockerMain env args run).events =
        [Event.printed (dockerHttpLine env), Event.served "0.0.0.0" p]) ∧
    (∀ s, getEnv env "PORT" = some s → pyParseInt s = none →
      (dockerMain env args run).outcome = Except.error PyErr.valueError ∧
      hasServedEvent (dockerMain env args run) = false) := by
  refine ⟨?_, ?_, ?_⟩
  · intro hp
    simp [dockerMain, dockerServeBody, dockerPortValue, h, hp]
  · intro s p hs hp
    simp [dockerMain, dockerServeBody, dockerPortValue, h, hs, hp]
  · intro s hs hp
    simp [dockerMain, dockerServeBody, dockerPortValue, hasServedEvent, h, hs, hp]

/-- C5 amended witness: Scenario C, K_SERVICE set and PORT equal to 9090;
the listener starts on port 9090. -/
theorem c5_port_selection_witness :
    dockerClassify [("K_SERVICE", "svc"), ("PORT", "9090")] = Mode.ServerlessMode ∧
    (dockerMain [("K_SERVICE", "svc"), ("PORT", "9090")] [] (fun _ => ("", 0))).events =
      [Event.printed (dockerHttpLine [("K_SERVICE", "svc"), ("PORT", "9090")]),
       Event.served "0.0.0.0" 9090] :=
  ⟨by decide,
   (c5_port_selection [("K_SERVICE", "svc"), ("PORT", "9090")] [] (fun _ => ("", 0))
     (by decide)).2.1 "9090" 9090 (by decide) (by decide)⟩

/-- C6: every GET request to path / is answered with status 200 and the
fixed constant body ContainerService; the response is the same whatever the
request, so the body is not derived from any input. -/
theorem c6_handler_constant (method path : String)
    (hp : path = "/") (hm : method = "GET") :
    dockerApp method path = some (200, ContainerService) := by
  rw [hp, hm]
  rfl

/-- C6 witness: the concrete request GET / receives 200 with the constant
body. -/
theorem c6_handler_constant_witness :
    dockerApp "GET" "/" = some (200, ContainerService) :=
  c6_handler_constant "GET" "/" rfl rfl

/-- C7: in LocalMode the trace holds exactly one shell invocation, whose
command line is the sourcing of the cargo environment file, the change of
directory to /diosix, and the arguments joined by single spaces in order,
composed into one single string handed to one `os.system` call. -/
theorem c7_command_composition (env : List (String × String)) (args : List String)
    (run : String → String × Int) (h : dockerClassify env = Mode.LocalMode) :
    (dockerMain env args run).events =
      [Event.printed "Running locally",
       Event.ranShell (localCommand args)
         (run (localCommand args)).1 (run (localCommand args)).2] ∧
    localCommand args = ". $HOME/.cargo/env && cd /diosix && " ++ String.intercalate " " args ∧
    ((dockerMain env args run).events.countP
      (fun e => match e with | Event.ranShell _ _ _ => true | _ => false)) = 1 := by
  unfold dockerMain
  rw [h]
  exact ⟨rfl, rfl, rfl⟩

/-- C7 witness: with arguments echo hi the one executed command line is the
sourcing, the directory change and echo hi, space-joined, in one string. -/
theorem c7_command_composition_witness :
    dockerClassify [] = Mode.LocalMode ∧
    (dockerMain [] ["echo", "hi"] (fun _ => ("hi\n", 0))).events =
      [Event.printed "Running locally",
       Event.ranShell ". $HOME/.cargo/env && cd /diosix && echo hi" "hi\n" 0] :=
  ⟨by decide,
   (c7_command_composition [] ["echo", "hi"] (fun _ => ("hi\n", 0)) (by decide)).1⟩

/-- C8: with no arguments the LocalMode branch still issues its single
shell invocation, whose command line is the environment sourcing and the
directory change followed by the empty command, and the entrypoint still
exits 0 whatever the shell returns for it. -/
theorem c8_empty_command (env : List (String × String)) (run : String → String × Int)
    (h : dockerClassify env = Mode.LocalMode) :
    (dockerMain env [] run).events =
      [Event.printed "Running locally",
       Event.ranShell ". $HOME/.cargo/env && cd /diosix && "
         (run ". $HOME/.cargo/env && cd /diosix && ").1
         (run ". $HOME/.cargo/env && cd /diosix && ").2] ∧
    exitCodeOf (dockerMain env [] run) = 0 := by
  unfold dockerMain
  rw [h]
  exact ⟨rfl, rfl⟩

/-- C8 witness: Scenario D, K_SERVICE present but empty and no arguments;
LocalMode runs the degenerate command and exits 0 even though the shell
reports status 2 for it. -/
theorem c8_empty_command_witness :
    dockerClassify [("K_SERVICE", "")] = Mode.LocalMode ∧
    (dockerMain [("K_SERVICE", "")] [] (fun _ => ("", (2 : Int)))).events =
      [Event.printed "Running locally",
       Event.ranShell ". $HOME/.cargo/env && cd /diosix && " "" 2] ∧
    exitCodeOf (dockerMain [("K_SERVICE", "")] [] (fun _ => ("", (2 : Int)))) = 0 :=
  ⟨by decide,
   (c8_empty_command [("K_SERVICE", "")] (fun _ => ("", (2 : Int))) (by decide)).1,
   (c8_empty_command [("K_SERVICE", "")] (fun _ => ("", (2 : Int))) (by decide)).2⟩

/-- C9: exactly one mode is active per run.  For the docker variant,
either the classifier says LocalMode and the trace holds a shell run and no
listener, or it says ServerlessMode and the trace holds no shell run, never
both; which branch runs depends only on the environment, not on the
arguments or on the wrapped command behavior.  For the inert variant the
two announcement bodies are likewise mutually exclusive, following its own
classifier. -/
theorem c9_exclusive_mode (env : List (String × String)) (args args' : List String)
    (run run' : String → String × Int) :
    Xor'
      (dockerClassify env = Mode.LocalMode ∧
        hasShellEvent (dockerMain env args run) = true ∧
        hasServedEvent (dockerMain env args run) = false)
      (dockerClassify env = Mode.ServerlessMode ∧
        hasShellEvent (dockerMain env args run) = false) ∧
    hasShellEvent (dockerMain env args run) = hasShellEvent (dockerMain env args' run') ∧
    Xor'
      (variantClassify env = Mode.LocalMode ∧
        (variantMain env args).events = [Event.printed "Running locally"])
      (variantClassify env = Mode.ServerlessMode ∧
        (variantMain env args).events = [Event.printed "Running HTTP service for Google Cloud"]) := by
  refine ⟨?_, ?_, ?_⟩
  · cases hd : dockerClassify env
    · left
      refine ⟨⟨rfl, ?_, ?_⟩, ?_⟩
      · unfold dockerMain; rw [hd]; rfl
      · unfold dockerMain; rw [hd]; rfl
      · intro hc
        exact Mode.noConfusion hc.1
    · right
      refine ⟨⟨rfl, ?_⟩, ?_⟩
      · unfold dockerMain; rw [hd]
        unfold dockerServeBody
        cases dockerPortValue env <;> rfl
      · intro hc
        exact Mode.noConfusion hc.1
  · cases hd : dockerClassify env
    · unfold dockerMain; rw [hd]; rfl
    · unfold dockerMain; rw [hd]
  · cases hv : variantClassify env
    · left
      refine ⟨⟨rfl, ?_⟩, ?_⟩
      · unfold variantMain; rw [hv]
      · intro hc
        exact Mode.noConfusion hc.1
    · right
      refine ⟨⟨rfl, ?_⟩, ?_⟩
      · unfold variantMain; rw [hv]
      · intro hc
        exact Mode.noConfusion hc.1

/-- C10: the src/entrypoint.py variant never starts a listener and never
runs a shell command, whatever the environment and arguments; its whole
observable behavior is one announcement line printed to stdout, it retains
no command output, and it exits 0. -/
theorem c10_variant_inert (env : List (String × String)) (args : List String) :
    ((variantMain env args).events = [Event.printed "Running locally"] ∨
     (variantMain env args).events = [Event.printed "Running HTTP service for Google Cloud"]) ∧
    hasShellEvent (variantMain env args) = false ∧
    hasServedEvent (variantMain env args) = false ∧
    exitCodeOf (variantMain env args) = 0 ∧
    (variantMain env args).retained = none := by
  unfold variantMain
  cases hv : variantClassify env
  · exact ⟨Or.inl rfl, rfl, rfl, rfl, rfl⟩
  · exact ⟨Or.inr rfl, rfl, rfl, rfl, rfl⟩
